import Mathlib

/-
Verification development for the science-alignment-scorecard repository.

The pipeline under study consists of:
  * statement-independence-qc.js  (class StatementIndependenceQC): probes that
    test whether a scoring function treats each statement as an independent
    observation (ordering probe, prior-statement-influence probe, context
    probes), plus per-probe scoring helpers;
  * the advanced analytics module (class AdvancedBiasAnalytics and class
    StatisticalTestSuite): source-bias risk heuristics and simplified
    statistical tests (Welch t, Mann-Whitney U);
  * test_2024_election.js aggregation (generateOverallAssessment,
    calculateConfidenceLevel and the sub-score helpers).

Modelling conventions:
  * JavaScript numbers are modelled as rationals wherever the code only uses
    field arithmetic and comparisons, so every definition stays executable;
    the Welch t-test uses Math.sqrt and is modelled over the reals.
  * Division is total in the embedding (x / 0 = 0), where JavaScript would
    produce Infinity or NaN.  Each theorem whose truth could be affected by
    this is stated away from the degenerate input, or the divergence is noted.
  * Math.max(...list) / Math.min(...list) over a possibly-empty list is
    modelled by jsMax / jsMin below, which return 0 on the empty list where
    JavaScript returns -Infinity / Infinity.  All quantities the theorems
    extract from these are maxima of nonempty lists, except where explicitly
    noted (the empty-statement-set theorems only use the fact that the
    ordering probe passes there, which agrees with -Infinity <= threshold).
  * The scoring function supplied by the caller is an explicit functional
    argument; its options object is the Options structure, with absent keys
    modelled as none.
  * Array.prototype.sort with the numeric comparator (stable in JavaScript)
    is modelled by insertion sort, which is stable.
-/

/-- Math.max over a list of numbers; 0 for the empty list (JS: -Infinity). -/
def jsMax : List ℚ → ℚ
  | [] => 0
  | x :: xs => xs.foldl max x

/-- Math.min over a list of numbers; 0 for the empty list (JS: Infinity). -/
def jsMin : List ℚ → ℚ
  | [] => 0
  | x :: xs => xs.foldl min x

/-- Array.prototype.slice(a, b): the elements at indices a, ..., b-1. -/
def jsSlice {α : Type} (l : List α) (a b : ℕ) : List α :=
  (l.take b).drop a

/-- StatementIndependenceQC.calculateMean:
values.length > 0 ? values.reduce((a,b) => a+b, 0) / values.length : 0.
The same code appears verbatim in AdvancedBiasAnalytics.calculateMean. -/
def calculateMean (values : List ℚ) : ℚ :=
  if 0 < values.length then values.foldl (· + ·) 0 / values.length else 0

/-- StatementIndependenceQC.calculateVariance (population variance with an
explicit guard returning 0 for fewer than two values).  The same code appears
verbatim in AdvancedBiasAnalytics.calculateVariance. -/
def calculateVariance (values : List ℚ) : ℚ :=
  if values.length < 2 then 0
  else values.foldl (fun sum val => sum + (val - calculateMean values) ^ 2) 0 / values.length

/-- A Statement record as consumed by the probes (data model of the spec,
fields as read by the source: id, quote, topic, source, date, candidate,
party, context, position, score). -/
structure Statement where
  id : ℕ
  quote : String
  topic : String
  source : String
  date : String
  candidate : String
  party : String
  context : String
  position : ℚ
  score : ℚ
deriving DecidableEq

/-- The options object passed to the externally supplied scoring function.
Absent keys are modelled as none.  Only the keys exercised by the embedded
probes are carried. -/
structure Options where
  isolated : Option Bool := none
  priorStatements : Option (List Statement) := none
deriving DecidableEq

/-- The scoring-function interface: score(statement, options) -> number. -/
def ScoringFunction : Type := Statement → Options → ℚ

/-- The independenceThresholds configuration record of StatementIndependenceQC. -/
structure IndependenceThresholds where
  orderVariance : ℚ
  priorStatementInfluence : ℚ
  contextualBias : ℚ
  batchProcessingVariance : ℚ
  temporalSequenceBias : ℚ

/-- The threshold values set in the StatementIndependenceQC constructor. -/
def independenceThresholds : IndependenceThresholds :=
  { orderVariance := 5
    priorStatementInfluence := 3
    contextualBias := 8
    batchProcessingVariance := 4
    temporalSequenceBias := 6 }

/-- One entry of an ordering-probe iteration: { statementId, score, iteration }. -/
structure ScoreEntry where
  statementId : ℕ
  score : ℚ
  iteration : ℕ
deriving DecidableEq

/-- One iteration of the ordering probe: { iteration, scores }. -/
structure IterationResult where
  iteration : ℕ
  scores : List ScoreEntry
deriving DecidableEq

/-- Per-statement entry of analyzeOrderingVariance.statementVariances
(keyed by statement id in the source object). -/
structure StatementVariance where
  statementId : ℕ
  scores : List ℚ
  variance : ℚ
  mean : ℚ
  range : ℚ
deriving DecidableEq

/-- Entry of analyzeOrderingVariance.problematicStatements. -/
structure ProblematicStatement where
  id : ℕ
  quote : String
  variance : ℚ
  severity : String
deriving DecidableEq

/-- Result of analyzeOrderingVariance. -/
structure OrderingAnalysis where
  statementVariances : List StatementVariance
  maxVariance : ℚ
  averageVariance : ℚ
  problematicStatements : List ProblematicStatement
deriving DecidableEq

/-- StatementIndependenceQC.analyzeOrderingVariance(results, statements).
For each statement the scores recorded for its id across all iterations are
collected (results[k].scores.find(s => s.statementId === statement.id).score;
the .getD 0 can only fire when an iteration does not contain the statement,
in which case the JavaScript original would throw), their population variance
is computed, and the maximum / average over all statements is reported. -/
def analyzeOrderingVariance (results : List IterationResult) (statements : List Statement) :
    OrderingAnalysis :=
  let statementVariances := statements.map (fun statement =>
    let statementScores := results.map (fun result =>
      ((result.scores.find? (fun s => s.statementId == statement.id)).map ScoreEntry.score).getD 0)
    { statementId := statement.id
      scores := statementScores
      variance := calculateVariance statementScores
      mean := calculateMean statementScores
      range := jsMax statementScores - jsMin statementScores })
  let problematicStatements := statements.filterMap (fun statement =>
    let statementScores := results.map (fun result =>
      ((result.scores.find? (fun s => s.statementId == statement.id)).map ScoreEntry.score).getD 0)
    let variance := calculateVariance statementScores
    if independenceThresholds.orderVariance < variance then
      some { id := statement.id
             quote := statement.quote.take 100 ++ "..."
             variance := variance
             severity :=
               if independenceThresholds.orderVariance * 2 < variance then "high" else "medium" }
    else none)
  let allVariances := statementVariances.map StatementVariance.variance
  { statementVariances := statementVariances
    maxVariance := jsMax allVariances
    averageVariance := calculateMean allVariances
    problematicStatements := problematicStatements }

/-- StatementIndependenceQC.calculateOrderingIndependenceScore. -/
def calculateOrderingIndependenceScore (analysis : OrderingAnalysis) : ℚ :=
  max 0 (100 - (analysis.maxVariance / independenceThresholds.orderVariance) * 100)

/-- Result of testOrderingIndependence (testType and description strings are
carried verbatim from the source). -/
structure OrderingTest where
  testType : String
  description : String
  iterations : ℕ
  results : List IterationResult
  analysis : OrderingAnalysis
  independenceScore : ℚ
  passed : Bool
deriving DecidableEq

/-- StatementIndependenceQC.testOrderingIndependence(statements, scoringFunction).
The source draws 10 uniformly random shuffles of the statement list and scores
each statement of each shuffle under { isolated: true }.  The embedding takes
the drawn orderings as an explicit argument; theorems about the probe
constrain them to be permutations of the statement list. -/
def testOrderingIndependence (statements : List Statement)
    (orderings : List (List Statement)) (scoringFunction : ScoringFunction) : OrderingTest :=
  let results := orderings.enum.map (fun p =>
    { iteration := p.1
      scores := p.2.map (fun statement =>
        { statementId := statement.id
          score := scoringFunction statement { isolated := some true }
          iteration := p.1 }) })
  let analysis := analyzeOrderingVariance results statements
  { testType := "ordering_independence"
    description := "Test if statement scores change based on the order they are processed"
    iterations := 10
    results := results
    analysis := analysis
    independenceScore := calculateOrderingIndependenceScore analysis
    passed := analysis.maxVariance ≤ independenceThresholds.orderVariance }

/-- Per-statement result of testPriorStatementInfluence. -/
structure PriorResult where
  statementId : ℕ
  isolatedScore : ℚ
  positiveContextScore : ℚ
  negativeContextScore : ℚ
  mixedContextScore : ℚ
  maxInfluence : ℚ
deriving DecidableEq

/-- StatementIndependenceQC.identifyContextualBias(statementResult). -/
def identifyContextualBias (r : PriorResult) : List String :=
  (if 3 < |r.isolatedScore - r.positiveContextScore| then ["positive_context_bias"] else []) ++
  (if 3 < |r.isolatedScore - r.negativeContextScore| then ["negative_context_bias"] else []) ++
  (if 3 < |r.isolatedScore - r.mixedContextScore| then ["sequence_dependency"] else [])

/-- Entry of analyzePriorInfluence.problematicStatements. -/
structure ProblematicInfluence where
  id : ℕ
  influence : ℚ
  contextualBias : List String
deriving DecidableEq

/-- Result of analyzePriorInfluence. -/
structure PriorAnalysis where
  maxInfluence : ℚ
  averageInfluence : ℚ
  problematicCount : ℕ
  problematicStatements : List ProblematicInfluence
deriving DecidableEq

/-- StatementIndependenceQC.analyzePriorInfluence(results). -/
def analyzePriorInfluence (results : List PriorResult) : PriorAnalysis :=
  let influences := results.map PriorResult.maxInfluence
  let problematic := results.filter
    (fun r => independenceThresholds.priorStatementInfluence < r.maxInfluence)
  { maxInfluence := jsMax influences
    averageInfluence := calculateMean influences
    problematicCount := problematic.length
    problematicStatements := problematic.map (fun s =>
      { id := s.statementId
        influence := s.maxInfluence
        contextualBias := identifyContextualBias s }) }

/-- StatementIndependenceQC.calculatePriorInfluenceIndependenceScore. -/
def calculatePriorInfluenceIndependenceScore (analysis : PriorAnalysis) : ℚ :=
  max 0 (100 - (analysis.maxInfluence / independenceThresholds.priorStatementInfluence) * 100)

/-- Result of testPriorStatementInfluence. -/
structure PriorTest where
  testType : String
  description : String
  results : List PriorResult
  analysis : PriorAnalysis
  independenceScore : ℚ
  passed : Bool
deriving DecidableEq

/-- StatementIndependenceQC.testPriorStatementInfluence(statements, scoringFunction).
Each statement (at original index i) is scored four ways: isolated
({ isolated: true }); with priorStatements = the first 3 statements whose
position exceeds 80; with the first 3 whose position is below 30; and with
statements.slice(max(0, i-2), i).  maxInfluence is the largest absolute
deviation of a contextual score from the isolated score. -/
def testPriorStatementInfluence (statements : List Statement)
    (scoringFunction : ScoringFunction) : PriorTest :=
  let results := statements.enum.map (fun p =>
    let statement := p.2
    let isolatedScore := scoringFunction statement { isolated := some true }
    let positiveContext := (statements.filter (fun s => 80 < s.position)).take 3
    let positiveContextScore := scoringFunction statement { priorStatements := some positiveContext }
    let negativeContext := (statements.filter (fun s => s.position < 30)).take 3
    let negativeContextScore := scoringFunction statement { priorStatements := some negativeContext }
    let mixedContext := jsSlice statements (p.1 - 2) p.1
    let mixedContextScore := scoringFunction statement { priorStatements := some mixedContext }
    { statementId := statement.id
      isolatedScore := isolatedScore
      positiveContextScore := positiveContextScore
      negativeContextScore := negativeContextScore
      mixedContextScore := mixedContextScore
      maxInfluence := max (|isolatedScore - positiveContextScore|)
        (max (|isolatedScore - negativeContextScore|) (|isolatedScore - mixedContextScore|)) })
  let analysis := analyzePriorInfluence results
  { testType := "prior_statement_influence"
    description := "Test if previous statements influence current statement scoring"
    results := results
    analysis := analysis
    independenceScore := calculatePriorInfluenceIndependenceScore analysis
    passed := analysis.maxInfluence ≤ independenceThresholds.priorStatementInfluence }

/-- StatementIndependenceQC.anonymizeStatementContext(statement): a spread copy
with the five context fields replaced by placeholder tokens. -/
def anonymizeStatementContext (statement : Statement) : Statement :=
  { statement with
    source := "[ANONYMIZED_SOURCE]"
    date := "[ANONYMIZED_DATE]"
    candidate := "[ANONYMIZED_CANDIDATE]"
    party := "[ANONYMIZED_PARTY]"
    context := "[ANONYMIZED_CONTEXT]" }

/-- StatementIndependenceQC.generateAlternateContexts(statement, allStatements):
for the first min(3, count) other statements, a spread copy of statement with
the five context fields taken from the other statement. -/
def generateAlternateContexts (statement : Statement) (allStatements : List Statement) :
    List Statement :=
  let otherStatements := allStatements.filter (fun s => s.id ≠ statement.id)
  (otherStatements.take (min 3 otherStatements.length)).map (fun other =>
    { statement with
      source := other.source
      date := other.date
      candidate := other.candidate
      party := other.party
      context := other.context })

/-- List-of-characters containment check modelling String.prototype.includes:
true when sub occurs contiguously inside hay. -/
def jsStrIncludes (hay sub : List Char) : Bool :=
  match hay with
  | [] => sub.isEmpty
  | c :: rest => sub.isPrefixOf (c :: rest) || jsStrIncludes rest sub

/-- The characters of a string lower-cased, modelling
String.prototype.toLowerCase for the ASCII source names involved. -/
def lowerChars (s : String) : List Char :=
  s.data.map Char.toLower

/-- The fixed keyword list of calculateSourceBiasRisk. -/
def biasedKeywords : List String :=
  ["partisan", "conservative", "liberal", "progressive", "activist"]

/-- Result of calculateSourceBiasRisk. -/
structure BiasRisk where
  riskLevel : String
  riskFactors : List String
  riskScore : ℚ
deriving DecidableEq

/-- AdvancedBiasAnalytics.calculateSourceBiasRisk(scores, sourceName):
four independent heuristics each push one risk-factor token, in source order;
riskLevel is high for more than two factors, medium for more than zero,
low otherwise; riskScore = min(100, count * 25). -/
def calculateSourceBiasRisk (scores : List ℚ) (sourceName : String) : BiasRisk :=
  let variance := calculateVariance scores
  let mean := calculateMean scores
  let range := jsMax scores - jsMin scores
  let riskFactors : List String :=
    (if variance < 5 ∧ 5 < scores.length then ["suspiciously_low_variance"] else []) ++
    (if mean < 20 ∨ 80 < mean then ["extreme_mean_score"] else []) ++
    (if range < 15 ∧ 5 < scores.length then ["limited_score_range"] else []) ++
    (if biasedKeywords.any (fun keyword => jsStrIncludes (lowerChars sourceName) keyword.data)
     then ["potentially_biased_source_name"] else [])
  { riskLevel :=
      if 2 < riskFactors.length then "high"
      else if 0 < riskFactors.length then "medium"
      else "low"
    riskFactors := riskFactors
    riskScore := min 100 (riskFactors.length * 25) }

/-- StatisticalTestSuite.calculateVariance: population variance with NO short
sample guard (unlike the QC helper); for the empty list the embedded total
division yields 0 where JavaScript yields NaN. -/
noncomputable def suiteVariance (values : List ℝ) : ℝ :=
  let mean : ℝ := values.foldl (· + ·) 0 / (values.length : ℝ)
  values.foldl (fun sum val => sum + (val - mean) ^ 2) (0 : ℝ) / (values.length : ℝ)

/-- StatisticalTestSuite.tDistributionPValue(t, df): the fixed coarse lookup;
df is accepted and ignored by the source. -/
noncomputable def tDistributionPValue (t df : ℝ) : ℝ :=
  if 2 < t then 0.025 else if 1.645 < t then 0.05 else 0.1

/-- Result of welchTTest.  significant is the proposition
pValue < 0.05 exactly as computed by the source. -/
structure WelchResult where
  tStatistic : ℝ
  degreesOfFreedom : ℝ
  pValue : ℝ
  significant : Prop

/-- StatisticalTestSuite.welchTTest(sample1, sample2): the simplified Welch
statistic with Welch-Satterthwaite degrees of freedom and the coarse p-value
lookup.  Modelled over the reals because of Math.sqrt; division is total.
JavaScript produces NaN for the statistic when both samples have zero
variance (0/0); the exact-arithmetic embedding produces 0 there. -/
noncomputable def welchTTest (sample1 sample2 : List ℝ) : WelchResult :=
  let mean1 : ℝ := sample1.foldl (· + ·) 0 / (sample1.length : ℝ)
  let mean2 : ℝ := sample2.foldl (· + ·) 0 / (sample2.length : ℝ)
  let var1 := suiteVariance sample1
  let var2 := suiteVariance sample2
  let n1 : ℝ := sample1.length
  let n2 : ℝ := sample2.length
  let tStatistic := (mean1 - mean2) / Real.sqrt (var1 / n1 + var2 / n2)
  let df := (var1 / n1 + var2 / n2) ^ 2 /
    ((var1 / n1) ^ 2 / (n1 - 1) + (var2 / n2) ^ 2 / (n2 - 1))
  { tStatistic := tStatistic
    degreesOfFreedom := df
    pValue := tDistributionPValue |tStatistic| df
    significant := tDistributionPValue |tStatistic| df < 0.05 }

/-- StatisticalTestSuite.mannWhitneySignificant(u, n1, n2). -/
def mannWhitneySignificant (u : ℤ) (n1 n2 : ℕ) : Bool :=
  (u : ℚ) < min ((n1 : ℚ) * n2 * 0.3) 20

/-- Result of mannWhitneyU. -/
structure MannWhitneyResult where
  u1 : ℤ
  u2 : ℤ
  uStatistic : ℤ
  significant : Bool
deriving DecidableEq

/-- StatisticalTestSuite.mannWhitneyU(sample1, sample2): tag each value with
its group, sort the combined list by value (JavaScript stable sort, modelled
by insertion sort), and count, for each group-1 element at sorted index i,
the group-2 elements strictly before index i; u2 = n1*n2 - u1;
uStatistic = min(u1, u2). -/
def mannWhitneyU (sample1 sample2 : List ℚ) : MannWhitneyResult :=
  let combined := sample1.map (fun x => (x, 1)) ++ sample2.map (fun x => (x, 2))
  let sorted := List.insertionSort (fun a b => a.1 ≤ b.1) combined
  let u1 : ℕ := sorted.enum.foldl (fun acc p =>
    if p.2.2 = 1 then acc + ((sorted.take p.1).filter (fun item => item.2 = 2)).length
    else acc) 0
  let u2 : ℤ := (sample1.length : ℤ) * sample2.length - u1
  { u1 := (u1 : ℤ)
    u2 := u2
    uStatistic := min (u1 : ℤ) u2
    significant := mannWhitneySignificant (min (u1 : ℤ) u2) sample1.length sample2.length }

/-- One entry of partyBiasAnalysis.partyComparison as read by
calculatePartyBiasScore: scoreDifference (a number, falsy when 0) and the
significant flag of the optional biasAssessment object. -/
structure PartyComparison where
  scoreDifference : ℚ
  biasAssessmentSignificant : Option Bool
deriving DecidableEq

/-- The party-bias analysis object as read by the aggregation: the error
marker and the comparison values. -/
structure PartyBiasAnalysis where
  error : Bool
  partyComparison : List PartyComparison
deriving DecidableEq

/-- The source-bias analysis object as read by calculateSourceBiasScore:
the keys of sourceAnalysis and the suspiciousSources list. -/
structure SourceBiasAnalysis where
  sourceAnalysisKeys : List String
  suspiciousSources : List String
deriving DecidableEq

/-- The tests object consumed by generateOverallAssessment, with each
sub-result optional (absent when that test did not execute).  Of each
sub-result only the fields the aggregation reads are carried:
controlPanelResults.summary.overallBiasScore,
crossValidationResults.summary.biasLikelihood, and
independenceValidation.overallIndependenceScore are the carried rationals. -/
structure Tests where
  controlPanelResults : Option ℚ
  crossValidationResults : Option ℚ
  partyBiasAnalysis : Option PartyBiasAnalysis
  sourceBiasAnalysis : Option SourceBiasAnalysis
  independenceValidation : Option ℚ
deriving DecidableEq

/-- ElectionBiasTest2024.calculatePartyBiasScore: start from 100, subtract 20
per comparison whose scoreDifference is truthy with |difference| > 10, and 15
per comparison whose biasAssessment.significant holds; clamp at 0. -/
def calculatePartyBiasScore (partyBiasAnalysis : PartyBiasAnalysis) : ℚ :=
  max 0 (partyBiasAnalysis.partyComparison.foldl (fun totalScore comparison =>
    let afterDiff :=
      if comparison.scoreDifference ≠ 0 ∧ 10 < |comparison.scoreDifference|
      then totalScore - 20 else totalScore
    if comparison.biasAssessmentSignificant.getD false then afterDiff - 15 else afterDiff) 100)

/-- ElectionBiasTest2024.calculateSourceBiasScore: the share of
non-suspicious sources, scaled to 0-100; 100 when no sources were analyzed. -/
def calculateSourceBiasScore (sourceBiasAnalysis : SourceBiasAnalysis) : ℚ :=
  let totalSources := sourceBiasAnalysis.sourceAnalysisKeys.length
  let suspiciousSources := sourceBiasAnalysis.suspiciousSources.length
  if totalSources = 0 then 100
  else (((totalSources : ℚ) - suspiciousSources) / totalSources) * 100

/-- ElectionBiasTest2024.getBiasRating(score). -/
def getBiasRating (score : ℚ) : String :=
  if 90 ≤ score then "Excellent - Minimal bias detected"
  else if 80 ≤ score then "Good - Minor bias concerns"
  else if 70 ≤ score then "Fair - Moderate bias issues"
  else if 60 ≤ score then "Poor - Significant bias problems"
  else "Critical - Severe bias issues require immediate attention"

/-- Whether the party-bias category counts as executed for the confidence
calculation: tests.partyBiasAnalysis && !tests.partyBiasAnalysis.error. -/
def partyBiasRan (tests : Tests) : Bool :=
  match tests.partyBiasAnalysis with
  | some p => !p.error
  | none => false

/-- The factors counter of calculateConfidenceLevel: one per executed major
test category (control panel, cross-validation, independence, party bias). -/
def confidenceFactors (tests : Tests) : ℕ :=
  (if tests.controlPanelResults.isSome then 1 else 0) +
  (if tests.crossValidationResults.isSome then 1 else 0) +
  (if tests.independenceValidation.isSome then 1 else 0) +
  (if partyBiasRan tests then 1 else 0)

/-- ElectionBiasTest2024.calculateConfidenceLevel(tests): 25 points are added
per executed category while a factors counter is incremented in step, and the
sum is divided by the counter (0 when no category executed). -/
def calculateConfidenceLevel (tests : Tests) : ℚ :=
  let confidence : ℚ :=
    (if tests.controlPanelResults.isSome then 25 else 0) +
    (if tests.crossValidationResults.isSome then 25 else 0) +
    (if tests.independenceValidation.isSome then 25 else 0) +
    (if partyBiasRan tests then 25 else 0)
  let factors := confidenceFactors tests
  if 0 < factors then confidence / factors else 0

/-- The aggregate assessment fields carried by the embedding (keyFindings,
criticalIssues and recommendations are report strings not referenced by any
claim). -/
structure Assessment where
  overallBiasScore : ℚ
  rating : String
  confidence : ℚ
deriving DecidableEq

/-- ElectionBiasTest2024.generateOverallAssessment(tests): the weighted sum
and total weight are accumulated in source order over the sub-tests that are
present (control panel 0.25, cross-validation 0.20, party bias 0.20 when not
in error, source bias 0.15, independence 0.20); overallBiasScore is their
quotient when any weight accumulated, else 0. -/
def generateOverallAssessment (tests : Tests) : Assessment :=
  let s0 : ℚ × ℚ := (0, 0)
  let s1 := match tests.controlPanelResults with
    | some controlScore => (s0.1 + controlScore * 0.25, s0.2 + 0.25)
    | none => s0
  let s2 := match tests.crossValidationResults with
    | some biasLikelihood => (s1.1 + (100 - biasLikelihood) * 0.20, s1.2 + 0.20)
    | none => s1
  let s3 := match tests.partyBiasAnalysis with
    | some partyBias =>
        if partyBias.error then s2
        else (s2.1 + calculatePartyBiasScore partyBias * 0.20, s2.2 + 0.20)
    | none => s2
  let s4 := match tests.sourceBiasAnalysis with
    | some sourceBias => (s3.1 + calculateSourceBiasScore sourceBias * 0.15, s3.2 + 0.15)
    | none => s3
  let s5 := match tests.independenceValidation with
    | some independenceScore => (s4.1 + independenceScore * 0.20, s4.2 + 0.20)
    | none => s4
  let overallBiasScore := if 0 < s5.2 then s5.1 / s5.2 else 0
  { overallBiasScore := overallBiasScore
    rating := getBiasRating overallBiasScore
    confidence := calculateConfidenceLevel tests }

/-- Restatement from the spec, for the refinement claim on aggregation: the
numerator of the weighted average, summing weight-times-score over exactly
the sub-tests that executed. -/
def specExecutedWeightedSum (tests : Tests) : ℚ :=
  (match tests.controlPanelResults with
   | some controlScore => controlScore * 0.25
   | none => 0) +
  (match tests.crossValidationResults with
   | some biasLikelihood => (100 - biasLikelihood) * 0.20
   | none => 0) +
  (match tests.partyBiasAnalysis with
   | some partyBias => if partyBias.error then 0 else calculatePartyBiasScore partyBias * 0.20
   | none => 0) +
  (match tests.sourceBiasAnalysis with
   | some sourceBias => calculateSourceBiasScore sourceBias * 0.15
   | none => 0) +
  (match tests.independenceValidation with
   | some independenceScore => independenceScore * 0.20
   | none => 0)

/-- Restatement from the spec: the denominator of the weighted average, the
sum of the weights of exactly the sub-tests that executed. -/
def specExecutedWeight (tests : Tests) : ℚ :=
  (match tests.controlPanelResults with
   | some _ => (0.25 : ℚ)
   | none => 0) +
  (match tests.crossValidationResults with
   | some _ => (0.20 : ℚ)
   | none => 0) +
  (match tests.partyBiasAnalysis with
   | some partyBias => if partyBias.error then 0 else (0.20 : ℚ)
   | none => 0) +
  (match tests.sourceBiasAnalysis with
   | some _ => (0.15 : ℚ)
   | none => 0) +
  (match tests.independenceValidation with
   | some _ => (0.20 : ℚ)
   | none => 0)

/-- A concrete statement used by the witnesses. -/
def stmtA : Statement :=
  { id := 1, quote := "quote one", topic := "climate", source := "Wire", date := "2024-01-01"
    candidate := "Alice", party := "Democratic", context := "interview"
    position := 50, score := 50 }
/-- A second concrete statement used by the witnesses. -/
def stmtB : Statement :=
  { id := 2, quote := "quote two", topic := "vaccines", source := "Post", date := "2024-02-01"
    candidate := "Bob", party := "Republican", context := "rally"
    position := 85, score := 85 }
/-- A concrete scoring function that depends only on the statement id. -/
def idScoring : ScoringFunction := fun s _ => (s.id : ℚ) * 10
/-- A scoring function that ignores priorStatements but reads the isolated
flag, returning 50 for isolated calls and 60 otherwise. -/
def isolationSensitiveScoring : ScoringFunction :=
  fun _ opts => if opts.isolated = some true then 50 else 60
/-- A concrete scoring function returning the recorded position. -/
def positionScoring : ScoringFunction := fun s _ => s.position
/-- The alternate-context copy of stmtA carrying the context fields of stmtB. -/
def altAB : Statement :=
  { stmtA with
    source := stmtB.source
    date := stmtB.date
    candidate := stmtB.candidate
    party := stmtB.party
    context := stmtB.context }
/-- Five statements all scored exactly 50, as in the claim about the
source-bias risk heuristics. -/
def fiveFifties : List ℚ := [50, 50, 50, 50, 50]
/-- Six statements all scored exactly 50. -/
def sixFifties : List ℚ := [50, 50, 50, 50, 50, 50]
/-- The tests object of the claimed aggregation example: only the control
panel (score 90) and independence (score 70) sub-tests executed. -/
def twoProbeTests : Tests :=
  { controlPanelResults := some 90
    crossValidationResults := none
    partyBiasAnalysis := none
    sourceBiasAnalysis := none
    independenceValidation := some 70 }
/-- A tests object where exactly two of the four confidence categories
(control panel and cross-validation) executed. -/
def twoOfFourTests : Tests :=
  { controlPanelResults := some 90
    crossValidationResults := some 10
    partyBiasAnalysis := none
    sourceBiasAnalysis := none
    independenceValidation := none }

/-- The JavaScript reduce((a,b) => a+b, 0) left fold is the list sum. -/
theorem foldl_add_eq_sum (l : List ℚ) (a : ℚ) : l.foldl (· + ·) a = a + l.sum := by
  induction l generalizing a with
  | nil => simp
  | cons x xs ih => simp only [List.foldl_cons, ih, List.sum_cons]; ring

/-- Folding an accumulator through additions of a function that vanishes on
every element of the list leaves the accumulator unchanged. -/
theorem foldl_add_fn_zero (f : ℚ → ℚ) (l : List ℚ) (a : ℚ) (h : ∀ x ∈ l, f x = 0) :
    l.foldl (fun sum val => sum + f val) a = a := by
  induction l generalizing a with
  | nil => rfl
  | cons x xs ih =>
    simp only [List.foldl_cons, h x (List.mem_cons_self x xs), add_zero]
    exact ih a (fun y hy => h y (List.mem_cons_of_mem _ hy))

/-- calculateMean of a nonempty constant list is that constant. -/
theorem calculateMean_const (l : List ℚ) (c : ℚ) (hl : l ≠ []) (h : ∀ x ∈ l, x = c) :
    calculateMean l = c := by
  have hsum : l.sum = l.length • c := List.sum_eq_card_nsmul l c h
  have hlen : 0 < l.length := List.length_pos.mpr hl
  unfold calculateMean
  rw [if_pos hlen, foldl_add_eq_sum, zero_add, hsum, nsmul_eq_mul]
  field_simp

/-- calculateVariance of a constant list is zero. -/
theorem calculateVariance_const (l : List ℚ) (c : ℚ) (h : ∀ x ∈ l, x = c) :
    calculateVariance l = 0 := by
  unfold calculateVariance
  by_cases hlen : l.length < 2
  · rw [if_pos hlen]
  · rw [if_neg hlen]
    have hl : l ≠ [] := by rintro rfl; simp at hlen
    have hm : calculateMean l = c := calculateMean_const l c hl h
    rw [foldl_add_fn_zero (fun val => (val - calculateMean l) ^ 2) l 0 ?_]
    · simp
    · intro x hx
      rw [h x hx, hm]; ring

/-- Folding max over a list every element of which equals the accumulator
returns the accumulator. -/
theorem foldl_max_const (xs : List ℚ) (c : ℚ) (h : ∀ x ∈ xs, x = c) :
    xs.foldl max c = c := by
  induction xs with
  | nil => rfl
  | cons y ys ih =>
    have hy : y = c := h y (List.mem_cons_self y ys)
    simp only [List.foldl_cons, hy, max_self]
    exact ih (fun x hx => h x (List.mem_cons_of_mem _ hx))

/-- jsMax of a constant list is that constant (for nonempty lists). -/
theorem jsMax_const (l : List ℚ) (c : ℚ) (hl : l ≠ []) (h : ∀ x ∈ l, x = c) :
    jsMax l = c := by
  match l with
  | [] => exact absurd rfl hl
  | x :: xs =>
    have hx : x = c := h x (List.mem_cons_self x xs)
    unfold jsMax
    rw [hx]
    exact foldl_max_const xs c (fun y hy => h y (List.mem_cons_of_mem _ hy))

/-- In the score table built from an ordering, looking up any statement that
occurs in the ordering finds an entry, and when the scoring function depends
only on the statement id that entry scores g id. -/
theorem find_score_of_mem (g : ℕ → ℚ) (scoringFunction : ScoringFunction)
    (hf : ∀ s opts, scoringFunction s opts = g s.id)
    (o : List Statement) (st : Statement) (hst : st ∈ o) (i : ℕ) :
    (((o.map (fun statement =>
        ScoreEntry.mk statement.id (scoringFunction statement { isolated := some true }) i)).find?
      (fun s => s.statementId == st.id)).map ScoreEntry.score).getD 0 = g st.id := by
  induction o with
  | nil => exact absurd hst (List.not_mem_nil st)
  | cons s rest ih =>
    by_cases hid : s.id = st.id
    · rw [List.map_cons, List.find?_cons_of_pos _ (by simp [hid])]
      simp [hf, hid]
    · rw [List.map_cons, List.find?_cons_of_neg _ (by simp [hid])]
      apply ih
      rcases List.mem_cons.mp hst with h1 | h1
      · exact absurd (congrArg Statement.id h1).symm hid
      · exact h1

/-- C2: for every non-empty statement set, every family of orderings drawn as
permutations of it, and every scoring function that is a deterministic
function of statement.id alone, the ordering-independence probe reports
analysis.maxVariance = 0 and passed = true; and for every input the probe
computes independenceScore = max(0, 100 - (maxVariance/5)*100) and passes
exactly when maxVariance is at most the orderVariance threshold 5. -/
theorem claim_C2_ordering_independence (statements : List Statement)
    (orderings : List (List Statement)) (scoringFunction : ScoringFunction) (g : ℕ → ℚ)
    (hne : statements ≠ [])
    (hperm : ∀ o ∈ orderings, o.Perm statements)
    (hf : ∀ s opts, scoringFunction s opts = g s.id) :
    (testOrderingIndependence statements orderings scoringFunction).analysis.maxVariance = 0 ∧
    (testOrderingIndependence statements orderings scoringFunction).passed = true ∧
    (∀ (sts : List Statement) (ords : List (List Statement)) (f : ScoringFunction),
      (testOrderingIndependence sts ords f).independenceScore =
        max 0 (100 - ((testOrderingIndependence sts ords f).analysis.maxVariance / 5) * 100) ∧
      ((testOrderingIndependence sts ords f).passed = true ↔
        (testOrderingIndependence sts ords f).analysis.maxVariance ≤ 5)) := by
  have hmax :
      (testOrderingIndependence statements orderings scoringFunction).analysis.maxVariance = 0 := by
    simp only [testOrderingIndependence, analyzeOrderingVariance]
    rw [List.map_map]
    apply jsMax_const _ 0
    · intro hmapnil
      exact hne (List.map_eq_nil_iff.mp hmapnil)
    · intro v hv
      obtain ⟨st, hst, hveq⟩ := List.mem_map.mp hv
      rw [← hveq]
      apply calculateVariance_const _ (g st.id)
      intro x hx
      obtain ⟨result, hres, hxeq⟩ := List.mem_map.mp hx
      obtain ⟨p, hp, hpeq⟩ := List.mem_map.mp hres
      have ho : p.2 ∈ orderings := by
        have := List.mem_enum_iff_getElem?.mp hp
        exact List.getElem?_mem this
      have hmem : st ∈ p.2 := ((hperm p.2 ho).mem_iff).mpr hst
      rw [← hxeq, ← hpeq]
      exact find_score_of_mem g scoringFunction hf p.2 st hmem p.1
  refine ⟨hmax, ?_, ?_⟩
  · have hpassed : (testOrderingIndependence statements orderings scoringFunction).passed =
        decide ((testOrderingIndependence statements orderings scoringFunction).analysis.maxVariance
          ≤ independenceThresholds.orderVariance) := rfl
    rw [hpassed, hmax]
    decide
  · intro sts ords f
    refine ⟨rfl, ?_⟩
    have hp : (testOrderingIndependence sts ords f).passed =
        decide ((testOrderingIndependence sts ords f).analysis.maxVariance
          ≤ independenceThresholds.orderVariance) := rfl
    have ht : independenceThresholds.orderVariance = 5 := rfl
    rw [hp, decide_eq_true_eq, ht]

/-- Witness for C2: the probe run on two statements with two explicit
permutations and the id-determined scoring function reports zero maximum
variance and passes. -/
theorem claim_C2_witness :
    ([stmtA, stmtB] ≠ ([] : List Statement)) ∧
    (∀ o ∈ [[stmtB, stmtA], [stmtA, stmtB]], o.Perm [stmtA, stmtB]) ∧
    (testOrderingIndependence [stmtA, stmtB] [[stmtB, stmtA], [stmtA, stmtB]]
      idScoring).analysis.maxVariance = 0 ∧
    (testOrderingIndependence [stmtA, stmtB] [[stmtB, stmtA], [stmtA, stmtB]]
      idScoring).passed = true :=
  ⟨by decide, by decide,
   (claim_C2_ordering_independence [stmtA, stmtB] [[stmtB, stmtA], [stmtA, stmtB]] idScoring
     (fun n => (n : ℚ) * 10) (by decide) (by decide) (fun s opts => rfl)).1,
   (claim_C2_ordering_independence [stmtA, stmtB] [[stmtB, stmtA], [stmtA, stmtB]] idScoring
     (fun n => (n : ℚ) * 10) (by decide) (by decide) (fun s opts => rfl)).2.1⟩

/-- C3 (amended): for every non-empty statement set and every scoring
function whose result depends only on the statement itself (constant in the
whole options object), the prior-statement-influence probe reports
maxInfluence = 0 for every statement and an overall independenceScore = 100.
The amendment against the original claim: ignoring only the priorStatements
key is not enough, because the isolated baseline call passes
{ isolated: true } while the three contextual calls pass only
{ priorStatements: ... }, so a function reading the isolated flag can differ
between the two shapes (see the counterexample). -/
theorem claim_C3_prior_influence (statements : List Statement)
    (scoringFunction : ScoringFunction) (g : Statement → ℚ)
    (hne : statements ≠ [])
    (hf : ∀ s opts, scoringFunction s opts = g s) :
    (∀ r ∈ (testPriorStatementInfluence statements scoringFunction).results,
      r.maxInfluence = 0) ∧
    (testPriorStatementInfluence statements scoringFunction).analysis.maxInfluence = 0 ∧
    (testPriorStatementInfluence statements scoringFunction).independenceScore = 100 ∧
    (testPriorStatementInfluence statements scoringFunction).passed = true := by
  have hresults : ∀ r ∈ (testPriorStatementInfluence statements scoringFunction).results,
      r.maxInfluence = 0 := by
    intro r hr
    simp only [testPriorStatementInfluence] at hr
    obtain ⟨p, hp, rfl⟩ := List.mem_map.mp hr
    simp [hf]
  have hmaxI :
      (testPriorStatementInfluence statements scoringFunction).analysis.maxInfluence = 0 := by
    have hdef : (testPriorStatementInfluence statements scoringFunction).analysis.maxInfluence =
        jsMax ((testPriorStatementInfluence statements scoringFunction).results.map
          PriorResult.maxInfluence) := rfl
    rw [hdef]
    apply jsMax_const _ 0
    · intro hnil
      have hlen : (testPriorStatementInfluence statements scoringFunction).results.length =
          statements.length := by
        simp [testPriorStatementInfluence, List.enum_length]
      have : statements.length = 0 := by
        have := congrArg List.length hnil
        simpa [hlen] using this
      exact hne (List.length_eq_zero.mp this)
    · intro v hv
      obtain ⟨r, hr, rfl⟩ := List.mem_map.mp hv
      exact hresults r hr
  refine ⟨hresults, hmaxI, ?_, ?_⟩
  · have hdef : (testPriorStatementInfluence statements scoringFunction).independenceScore =
        max 0 (100 - ((testPriorStatementInfluence statements
          scoringFunction).analysis.maxInfluence /
            independenceThresholds.priorStatementInfluence) * 100) := rfl
    rw [hdef, hmaxI]
    norm_num
  · have hdef : (testPriorStatementInfluence statements scoringFunction).passed =
        decide ((testPriorStatementInfluence statements scoringFunction).analysis.maxInfluence
          ≤ independenceThresholds.priorStatementInfluence) := rfl
    rw [hdef, hmaxI]
    decide

/-- Witness for C3: the probe run on one statement with a scoring function
that is constant in the options reports zero influence and a perfect score. -/
theorem claim_C3_witness :
    ([stmtA] ≠ ([] : List Statement)) ∧
    (testPriorStatementInfluence [stmtA] (fun s _ => s.position)).analysis.maxInfluence = 0 ∧
    (testPriorStatementInfluence [stmtA] (fun s _ => s.position)).independenceScore = 100 :=
  ⟨by decide,
   (claim_C3_prior_influence [stmtA] (fun s _ => s.position) (fun s => s.position)
     (by decide) (fun s opts => rfl)).2.1,
   (claim_C3_prior_influence [stmtA] (fun s _ => s.position) (fun s => s.position)
     (by decide) (fun s opts => rfl)).2.2.1⟩

/-- The isolationSensitiveScoring function never depends on the
priorStatements option: with the isolated flag fixed, changing the
priorStatements value does not change its output. -/
theorem isolationSensitiveScoring_ignores_prior (s : Statement) (iso : Option Bool)
    (p q : Option (List Statement)) :
    isolationSensitiveScoring s { isolated := iso, priorStatements := p } =
      isolationSensitiveScoring s { isolated := iso, priorStatements := q } := rfl

/-- Counterexample to C3 as stated: isolationSensitiveScoring ignores
priorStatements entirely (see isolationSensitiveScoring_ignores_prior), yet
on a one-statement set the probe reports maxInfluence = 10, not 0, and
independenceScore = 0, not 100, because the isolated baseline is scored
under { isolated: true } while the contextual calls are scored under
{ priorStatements: ... } without the isolated flag. -/
theorem claim_C3_counterexample :
    (testPriorStatementInfluence [stmtA] isolationSensitiveScoring).analysis.maxInfluence = 10 ∧
    (testPriorStatementInfluence [stmtA] isolationSensitiveScoring).independenceScore = 0 := by
  have hres : (testPriorStatementInfluence [stmtA] isolationSensitiveScoring).results.map
      PriorResult.maxInfluence =
        [max |(50 : ℚ) - 60| (max |(50 : ℚ) - 60| |(50 : ℚ) - 60|)] := rfl
  have hmax : (testPriorStatementInfluence [stmtA]
      isolationSensitiveScoring).analysis.maxInfluence = 10 := by
    have hdef : (testPriorStatementInfluence [stmtA]
        isolationSensitiveScoring).analysis.maxInfluence =
          jsMax ((testPriorStatementInfluence [stmtA] isolationSensitiveScoring).results.map
            PriorResult.maxInfluence) := rfl
    rw [hdef, hres]
    norm_num [jsMax]
  refine ⟨hmax, ?_⟩
  have hdef2 : (testPriorStatementInfluence [stmtA]
      isolationSensitiveScoring).independenceScore =
        max 0 (100 - ((testPriorStatementInfluence [stmtA]
          isolationSensitiveScoring).analysis.maxInfluence /
            independenceThresholds.priorStatementInfluence) * 100) := rfl
  rw [hdef2, hmax, show independenceThresholds.priorStatementInfluence = 3 from rfl,
    max_eq_left (by norm_num)]

/-- Counterexample to C8 as stated: on the empty statement list no error is
raised and the pipeline does not fail fast — the ordering probe still runs
its 10 iterations and produces a full probe result (here with a passing
verdict), contradicting that no probe result is produced. -/
theorem claim_C8_counterexample :
    (testOrderingIndependence [] (List.replicate 10 []) positionScoring).passed = true ∧
    (testOrderingIndependence [] (List.replicate 10 []) positionScoring).results.length = 10 := by
  decide

/-- C8 (amended): the source defines no ConfigurationError and performs no
empty-input validation; with an empty statement list the probes run and
return ordinary results (the ordering probe reports passed = true, since the
maximum over an empty variance set is below every threshold), while the
scoring function is never invoked for such input — the probe output is
identical for any two scoring functions. -/
theorem claim_C8_empty_input (f g : ScoringFunction) :
    (testOrderingIndependence [] (List.replicate 10 []) f).passed = true ∧
    testOrderingIndependence [] (List.replicate 10 []) f =
      testOrderingIndependence [] (List.replicate 10 []) g ∧
    testPriorStatementInfluence [] f = testPriorStatementInfluence [] g := by
  refine ⟨rfl, rfl, rfl⟩

/-- C9: the derivation helpers are pure — they return fresh statements and
leave the input untouched (mutation is unexpressible for these functional
definitions, so the content of the claim is field preservation).  The
anonymized copy and every alternate-context copy agree with the original on
id, quote, topic, position and score; the anonymized copy carries the five
placeholder tokens, and each alternate-context copy carries the five context
fields of some other statement of the collection. -/
theorem claim_C9_statement_immutability (statement : Statement)
    (allStatements : List Statement) (alt : Statement) :
    ((anonymizeStatementContext statement).id = statement.id ∧
     (anonymizeStatementContext statement).quote = statement.quote ∧
     (anonymizeStatementContext statement).topic = statement.topic ∧
     (anonymizeStatementContext statement).position = statement.position ∧
     (anonymizeStatementContext statement).score = statement.score ∧
     (anonymizeStatementContext statement).source = "[ANONYMIZED_SOURCE]" ∧
     (anonymizeStatementContext statement).date = "[ANONYMIZED_DATE]" ∧
     (anonymizeStatementContext statement).candidate = "[ANONYMIZED_CANDIDATE]" ∧
     (anonymizeStatementContext statement).party = "[ANONYMIZED_PARTY]" ∧
     (anonymizeStatementContext statement).context = "[ANONYMIZED_CONTEXT]") ∧
    (alt ∈ generateAlternateContexts statement allStatements →
      alt.id = statement.id ∧
      alt.quote = statement.quote ∧
      alt.topic = statement.topic ∧
      alt.position = statement.position ∧
      alt.score = statement.score ∧
      ∃ other ∈ allStatements, other.id ≠ statement.id ∧
        alt.source = other.source ∧
        alt.date = other.date ∧
        alt.candidate = other.candidate ∧
        alt.party = other.party ∧
        alt.context = other.context) := by
  refine ⟨⟨rfl, rfl, rfl, rfl, rfl, rfl, rfl, rfl, rfl, rfl⟩, ?_⟩
  intro halt
  simp only [generateAlternateContexts] at halt
  obtain ⟨other, hother, rfl⟩ := List.mem_map.mp halt
  have hother2 : other ∈ allStatements.filter (fun s => s.id ≠ statement.id) :=
    List.mem_of_mem_take hother
  have hmem : other ∈ allStatements := List.mem_of_mem_filter hother2
  have hid : other.id ≠ statement.id := by
    have := List.of_mem_filter hother2
    simpa using this
  exact ⟨rfl, rfl, rfl, rfl, rfl, other, hmem, hid, rfl, rfl, rfl, rfl, rfl⟩

/-- Witness for C9: the single alternate-context copy produced for stmtA from
the collection [stmtA, stmtB] is in the output list, keeps the identifying
fields of stmtA and carries the context fields of stmtB. -/
theorem claim_C9_witness :
    (altAB ∈ generateAlternateContexts stmtA [stmtA, stmtB]) ∧
    altAB.quote = stmtA.quote ∧
    altAB.source = stmtB.source :=
  ⟨by decide,
   ((claim_C9_statement_immutability stmtA [stmtA, stmtB] altAB).2 (by decide)).2.1,
   by decide⟩

/-- The coarse p-value lookup is below 0.05 exactly when its argument
exceeds 2. -/
theorem tDistributionPValue_lt_iff (t df : ℝ) :
    tDistributionPValue t df < 0.05 ↔ 2 < t := by
  unfold tDistributionPValue
  split_ifs with h1 h2
  · simp only [iff_true, h1]
    norm_num
  · simp only [h1, iff_false]
    norm_num
  · simp only [h1, iff_false]
    norm_num

/-- C4: for all numeric samples, welchTTest computes pValue by the fixed
coarse lookup on the absolute t statistic (0.025 above 2, 0.05 above 1.645,
else 0.1), flags significance as pValue < 0.05, and is therefore significant
exactly when the absolute t statistic exceeds 2. -/
theorem claim_C4_welch_pvalue_lookup (sample1 sample2 : List ℝ) :
    (welchTTest sample1 sample2).pValue =
      (if 2 < |(welchTTest sample1 sample2).tStatistic| then 0.025
       else if 1.645 < |(welchTTest sample1 sample2).tStatistic| then 0.05 else 0.1) ∧
    ((welchTTest sample1 sample2).significant ↔ (welchTTest sample1 sample2).pValue < 0.05) ∧
    ((welchTTest sample1 sample2).significant ↔
      2 < |(welchTTest sample1 sample2).tStatistic|) :=
  ⟨rfl, Iff.rfl, tDistributionPValue_lt_iff _ _⟩

/-- Counterexample to C7 as stated: at the concrete zero-variance sample
[5, 5] the Welch denominator sqrt(var/n + var/n) is exactly 0 (and the
numerator, a difference of identical means, is also 0), so the JavaScript
original computes tStatistic = 0/0 = NaN there — not 0 within any
floating-point tolerance.  The embedding returns 0 at this input only by
its total-division convention (x/0 = 0), so the original claim, quantified
over every sample, does not hold of the program.  The significant = false
half is unaffected: NaN comparisons are false in JavaScript, so the coarse
lookup still returns 0.1 and the result is not significant, which the last
conjunct records at the same input. -/
theorem claim_C7_counterexample :
    suiteVariance [(5 : ℝ), 5] = 0 ∧
    Real.sqrt (suiteVariance [(5 : ℝ), 5] / (([(5 : ℝ), 5] : List ℝ).length : ℝ) +
      suiteVariance [(5 : ℝ), 5] / (([(5 : ℝ), 5] : List ℝ).length : ℝ)) = 0 ∧
    ¬ (welchTTest [(5 : ℝ), 5] [(5 : ℝ), 5]).significant := by
  have hvar : suiteVariance [(5 : ℝ), 5] = 0 := by
    simp only [suiteVariance, List.foldl_cons, List.foldl_nil, List.length_cons,
      List.length_nil]
    norm_num
  refine ⟨hvar, ?_, ?_⟩
  · rw [hvar]
    norm_num [Real.sqrt_zero]
  · have ht : (welchTTest [(5 : ℝ), 5] [(5 : ℝ), 5]).tStatistic = 0 := by
      simp only [welchTTest]
      rw [sub_self, zero_div]
    have hsig : (welchTTest [(5 : ℝ), 5] [(5 : ℝ), 5]).significant ↔
        2 < |(welchTTest [(5 : ℝ), 5] [(5 : ℝ), 5]).tStatistic| :=
      tDistributionPValue_lt_iff _ _
    rw [hsig, ht]
    norm_num

/-- C7 (amended): for every sample with nonzero variance, welchTTest applied
to the sample and itself has t statistic exactly 0 — the sample means
coincide, so the numerator vanishes, and the Welch denominator is a positive
square root, so the quotient is a genuine 0 in JavaScript as well; and for
every sample whatsoever the result is not significant.  The amendment
against the original claim: for a zero-variance sample the JavaScript
original computes tStatistic = 0/0 = NaN instead of 0 (see the
counterexample), so the t = 0 half is asserted only on the domain where the
program really produces 0 (within the embedding's total division the
hypothesis is not load-bearing, but without it the statement would outrun
the program). -/
theorem claim_C7_welch_identical_samples :
    (∀ sample : List ℝ, 0 < suiteVariance sample →
      (welchTTest sample sample).tStatistic = 0) ∧
    (∀ sample : List ℝ, ¬ (welchTTest sample sample).significant) := by
  constructor
  · intro sample h
    simp only [welchTTest]
    rw [sub_self, zero_div]
  · intro sample
    have ht : (welchTTest sample sample).tStatistic = 0 := by
      simp only [welchTTest]
      rw [sub_self, zero_div]
    have hsig : (welchTTest sample sample).significant ↔
        2 < |(welchTTest sample sample).tStatistic| := tDistributionPValue_lt_iff _ _
    rw [hsig, ht]
    norm_num

/-- Witness for C7 at the sample [0, 2], whose population variance is 1. -/
theorem claim_C7_witness :
    0 < suiteVariance [(0 : ℝ), 2] ∧
    (welchTTest [(0 : ℝ), 2] [(0 : ℝ), 2]).tStatistic = 0 ∧
    ¬ (welchTTest [(0 : ℝ), 2] [(0 : ℝ), 2]).significant :=
  ⟨by
    simp only [suiteVariance, List.foldl_cons, List.foldl_nil, List.length_cons,
      List.length_nil]
    norm_num,
   claim_C7_welch_identical_samples.1 [(0 : ℝ), 2] (by
    simp only [suiteVariance, List.foldl_cons, List.foldl_nil, List.length_cons,
      List.length_nil]
    norm_num),
   claim_C7_welch_identical_samples.2 [(0 : ℝ), 2]⟩

/-- Counterexample to C5 as stated: with exactly 5 statements all scored 50
(source name without bias keywords), the low-variance heuristic does NOT
fire, because its sample guard requires scores.length > 5 and 5 > 5 is
false; the risk factor list is empty and the risk level is low, not
medium. -/
theorem foldl_min_const (xs : List ℚ) (c : ℚ) (h : ∀ x ∈ xs, x = c) :
    xs.foldl min c = c := by
  induction xs with
  | nil => rfl
  | cons y ys ih =>
    have hy : y = c := h y (List.mem_cons_self y ys)
    simp only [List.foldl_cons, hy, min_self]
    exact ih (fun x hx => h x (List.mem_cons_of_mem _ hx))

/-- jsMin of a constant list is that constant (for nonempty lists). -/
theorem jsMin_const (l : List ℚ) (c : ℚ) (hl : l ≠ []) (h : ∀ x ∈ l, x = c) :
    jsMin l = c := by
  match l with
  | [] => exact absurd rfl hl
  | x :: xs =>
    have hx : x = c := h x (List.mem_cons_self x xs)
    unfold jsMin
    rw [hx]
    exact foldl_min_const xs c (fun y hy => h y (List.mem_cons_of_mem _ hy))

theorem claim_C5_counterexample :
    (calculateSourceBiasRisk fiveFifties "Reuters").riskFactors = [] ∧
    (calculateSourceBiasRisk fiveFifties "Reuters").riskLevel = "low" := by
  have hvar : calculateVariance fiveFifties = 0 := calculateVariance_const _ 50 (by decide)
  have hmean : calculateMean fiveFifties = 50 := calculateMean_const _ 50 (by decide) (by decide)
  have hmax : jsMax fiveFifties = 50 := jsMax_const _ 50 (by decide) (by decide)
  have hmin : jsMin fiveFifties = 50 := jsMin_const _ 50 (by decide) (by decide)
  have hkw : (biasedKeywords.any fun keyword =>
      jsStrIncludes (lowerChars "Reuters") keyword.data) = false := by decide
  have hfac : (calculateSourceBiasRisk fiveFifties "Reuters").riskFactors = [] := by
    simp only [calculateSourceBiasRisk, hvar, hmean, hmax, hmin, hkw]
    norm_num [fiveFifties]
  refine ⟨hfac, ?_⟩
  have hlevdef : (calculateSourceBiasRisk fiveFifties "Reuters").riskLevel =
      (if 2 < (calculateSourceBiasRisk fiveFifties "Reuters").riskFactors.length then "high"
       else if 0 < (calculateSourceBiasRisk fiveFifties "Reuters").riskFactors.length
       then "medium" else "low") := rfl
  rw [hlevdef, hfac]
  norm_num

/-- C5 (amended): a source needs more than 5 statements for the sample-size
guards; with exactly 6 statements all scored exactly 50 (and a source name
containing none of the fixed bias keywords), the risk factors are exactly
suspiciously_low_variance and limited_score_range — including
suspiciously_low_variance and not extreme_mean_score — and the risk level is
medium. -/
theorem claim_C5_source_bias_risk :
    (calculateSourceBiasRisk sixFifties "Reuters").riskFactors =
      ["suspiciously_low_variance", "limited_score_range"] ∧
    "suspiciously_low_variance" ∈ (calculateSourceBiasRisk sixFifties "Reuters").riskFactors ∧
    "extreme_mean_score" ∉ (calculateSourceBiasRisk sixFifties "Reuters").riskFactors ∧
    (calculateSourceBiasRisk sixFifties "Reuters").riskLevel = "medium" := by
  have hvar : calculateVariance sixFifties = 0 := calculateVariance_const _ 50 (by decide)
  have hmean : calculateMean sixFifties = 50 := calculateMean_const _ 50 (by decide) (by decide)
  have hmax : jsMax sixFifties = 50 := jsMax_const _ 50 (by decide) (by decide)
  have hmin : jsMin sixFifties = 50 := jsMin_const _ 50 (by decide) (by decide)
  have hkw : (biasedKeywords.any fun keyword =>
      jsStrIncludes (lowerChars "Reuters") keyword.data) = false := by decide
  have hfac : (calculateSourceBiasRisk sixFifties "Reuters").riskFactors =
      ["suspiciously_low_variance", "limited_score_range"] := by
    simp only [calculateSourceBiasRisk, hvar, hmean, hmax, hmin, hkw]
    norm_num [sixFifties]
  refine ⟨hfac, ?_, ?_, ?_⟩
  · rw [hfac]; decide
  · rw [hfac]; decide
  · have hlevdef : (calculateSourceBiasRisk sixFifties "Reuters").riskLevel =
        (if 2 < (calculateSourceBiasRisk sixFifties "Reuters").riskFactors.length then "high"
         else if 0 < (calculateSourceBiasRisk sixFifties "Reuters").riskFactors.length
         then "medium" else "low") := rfl
    rw [hlevdef, hfac]
    norm_num

/-- C10: for all non-empty samples, mannWhitneyU reports u1 + u2 equal to
the product of the sample sizes, uStatistic = min(u1, u2), and hence a
uStatistic of at most half the product. -/
theorem claim_C10_mann_whitney (sample1 sample2 : List ℚ)
    (h1 : sample1 ≠ []) (h2 : sample2 ≠ []) :
    (mannWhitneyU sample1 sample2).u1 + (mannWhitneyU sample1 sample2).u2 =
      (sample1.length : ℤ) * sample2.length ∧
    (mannWhitneyU sample1 sample2).uStatistic =
      min (mannWhitneyU sample1 sample2).u1 (mannWhitneyU sample1 sample2).u2 ∧
    ((mannWhitneyU sample1 sample2).uStatistic : ℚ) ≤
      ((sample1.length : ℚ) * sample2.length) / 2 := by
  have hu2 : (mannWhitneyU sample1 sample2).u2 =
      (sample1.length : ℤ) * sample2.length - (mannWhitneyU sample1 sample2).u1 := rfl
  have hmin : (mannWhitneyU sample1 sample2).uStatistic =
      min (mannWhitneyU sample1 sample2).u1 (mannWhitneyU sample1 sample2).u2 := rfl
  refine ⟨by rw [hu2]; ring, hmin, ?_⟩
  have hsum : (mannWhitneyU sample1 sample2).u1 + (mannWhitneyU sample1 sample2).u2 =
      (sample1.length : ℤ) * sample2.length := by rw [hu2]; ring
  have hle : 2 * (mannWhitneyU sample1 sample2).uStatistic ≤
      (sample1.length : ℤ) * sample2.length := by
    rw [hmin, ← hsum, two_mul]
    exact add_le_add (min_le_left _ _) (min_le_right _ _)
  have hcast : ((2 * (mannWhitneyU sample1 sample2).uStatistic : ℤ) : ℚ) ≤
      (((sample1.length : ℤ) * sample2.length : ℤ) : ℚ) := by exact_mod_cast hle
  push_cast at hcast
  linarith

/-- Witness for C10 at the concrete samples [1] and [2]. -/
theorem claim_C10_witness :
    (([(1 : ℚ)] : List ℚ) ≠ []) ∧ (([(2 : ℚ)] : List ℚ) ≠ []) ∧
    (mannWhitneyU [(1 : ℚ)] [(2 : ℚ)]).u1 + (mannWhitneyU [(1 : ℚ)] [(2 : ℚ)]).u2 = 1 ∧
    ((mannWhitneyU [(1 : ℚ)] [(2 : ℚ)]).uStatistic : ℚ) ≤ 1 / 2 :=
  ⟨by decide, by decide,
   by
    have h := (claim_C10_mann_whitney [(1 : ℚ)] [(2 : ℚ)] (by decide) (by decide)).1
    simpa using h,
   by
    have h := (claim_C10_mann_whitney [(1 : ℚ)] [(2 : ℚ)] (by decide) (by decide)).2.2
    simpa using h⟩

/-- C1: whenever at least one sub-test executed, the aggregated
overallBiasScore is the weighted average over exactly the executed
sub-tests — each present sub-score weighted by its fixed weight (control
panel 0.25, cross-validation 0.20, party bias 0.20, source bias 0.15,
independence 0.20) and divided by the sum of the weights of the executed
sub-tests only — and on the two-probe example {controlPanel: 90,
independence: 70} it equals (90*0.25 + 70*0.20)/(0.25+0.20) = 730/9 =
81.11..., with absent probes contributing to neither the numerator nor the
denominator. -/
theorem claim_C1_weighted_average :
    (∀ tests : Tests, 0 < specExecutedWeight tests →
      (generateOverallAssessment tests).overallBiasScore =
        specExecutedWeightedSum tests / specExecutedWeight tests) ∧
    (generateOverallAssessment twoProbeTests).overallBiasScore = 730 / 9 := by
  constructor
  · intro tests h
    obtain ⟨cp, cv, pb, sb, iv⟩ := tests
    rcases cp with _ | c <;> rcases cv with _ | b <;>
      rcases pb with _ | ⟨err, comps⟩ <;> rcases sb with _ | s <;> rcases iv with _ | i <;>
      try cases err
    all_goals
      simp only [generateOverallAssessment, specExecutedWeightedSum, specExecutedWeight] at h ⊢
    all_goals norm_num at h ⊢
  · norm_num [generateOverallAssessment, twoProbeTests]

/-- Witness for C1 at the two-probe example, applying the weighted-average
theorem with its positivity hypothesis discharged concretely. -/
theorem claim_C1_witness :
    0 < specExecutedWeight twoProbeTests ∧
    (generateOverallAssessment twoProbeTests).overallBiasScore =
      specExecutedWeightedSum twoProbeTests / specExecutedWeight twoProbeTests :=
  ⟨by norm_num [specExecutedWeight, twoProbeTests],
   claim_C1_weighted_average.1 twoProbeTests (by norm_num [specExecutedWeight, twoProbeTests])⟩

/-- Counterexample to C6 as stated: with two of the four major categories
executed the code reports confidence 25, not the claimed proportion
100 * 2 / 4 = 50, because the 25-point sum is divided by the number of
categories that executed, not by four. -/
theorem claim_C6_counterexample :
    confidenceFactors twoOfFourTests = 2 ∧
    calculateConfidenceLevel twoOfFourTests = 25 ∧
    calculateConfidenceLevel twoOfFourTests ≠ 100 * 2 / 4 := by
  refine ⟨rfl, ?_, ?_⟩
  · norm_num [calculateConfidenceLevel, confidenceFactors, partyBiasRan, twoOfFourTests]
  · norm_num [calculateConfidenceLevel, confidenceFactors, partyBiasRan, twoOfFourTests]

/-- C6 (amended): confidence adds 25 points per executed major test category
and divides by the count of executed categories, so whenever at least one of
the four categories (control panel, cross-validation, independence,
party-bias without error) executed, the reported confidence is exactly 25 —
it does not equal the proportion of the four expected categories that ran. -/
theorem claim_C6_confidence (tests : Tests) (h : 1 ≤ confidenceFactors tests) :
    calculateConfidenceLevel tests = 25 := by
  obtain ⟨cp, cv, pb, sb, iv⟩ := tests
  rcases cp with _ | c <;> rcases cv with _ | b <;>
    rcases pb with _ | ⟨err, comps⟩ <;> rcases iv with _ | i <;> try cases err
  all_goals simp_all [calculateConfidenceLevel, confidenceFactors, partyBiasRan]
  all_goals norm_num

/-- Witness for C6 with the two-probe tests object (control panel and
independence executed). -/
theorem claim_C6_witness :
    1 ≤ confidenceFactors twoProbeTests ∧ calculateConfidenceLevel twoProbeTests = 25 :=
  ⟨by decide, claim_C6_confidence twoProbeTests (by decide)⟩
